import Mathlib

/-!
Shallow embedding of the meeting-transcription backend (src/main.py,
src/schemas.py): JSON/BSON value model, the result normalizer
`to_speaker_segments`, the AssemblyAI provider-client functions, the upload
endpoint `upload_meeting`, and the refresh orchestrator `get_meeting`.

Conventions of the embedding:
* JSON/BSON values are the inductive `Json`; numbers are modelled as exact
  rationals (the source arithmetic on timings is a single division by 1000).
* A "Python value" obtained from `dict.get(k)` is an `Option Json` where
  `none` stands for Python `None`.  Since `json`/BSON decoding maps JSON
  `null` to Python `None`, `pyGet` collapses a present-but-null field and a
  missing field to `none`, exactly as `dict.get` does; `Json.find?` is the
  raw lookup that distinguishes them (used to model `dict.get(k, default)`,
  which returns the default only when the key is missing).
* Fallible Python (an uncaught exception: pydantic validation error,
  `AttributeError`, `KeyError`) is modelled with `Option`/`Except`; an
  uncaught exception inside a route handler surfaces as an HTTP 500
  ("Internal Server Error") response.
* `HTTPException(status_code, detail)` is the `HttpError` structure.
-/

namespace MeetingRecorder

/-- JSON/BSON values as decoded from provider responses and store documents. -/
inductive Json where
  | null : Json
  | bool : Bool → Json
  | num : ℚ → Json
  | str : String → Json
  | arr : List Json → Json
  | obj : List (String × Json) → Json

/-- Raw key lookup on a JSON object (`none` iff the key is absent, or the
value is not an object at all). -/
def Json.find? : Json → String → Option Json
  | .obj fields, k => (fields.find? (fun p => p.1 == k)).map Prod.snd
  | _, _ => none

/-- Collapse a present JSON `null` to Python `None`. -/
def pyVal : Option Json → Option Json
  | some .null => none
  | v => v

/-- Python `d.get(k)`: `None` when the key is absent or its value is null. -/
def pyGet (j : Json) (k : String) : Option Json :=
  pyVal (j.find? k)

/-- Python `d.get(k, default)`: the default only when the key is absent;
a present null still comes back as `None`. -/
def pyGetD (j : Json) (k : String) (d : Option Json) : Option Json :=
  match j.find? k with
  | none => d
  | some v => pyVal (some v)

/-- Python truthiness of a value obtained from `dict.get`. -/
def pyTruthy : Option Json → Bool
  | none => false
  | some .null => false
  | some (.bool b) => b
  | some (.num q) => !(q == 0)
  | some (.str s) => !s.isEmpty
  | some (.arr l) => !l.isEmpty
  | some (.obj l) => !l.isEmpty

/-- Python `a or b`. -/
def pyOr (a b : Option Json) : Option Json :=
  if pyTruthy a then a else b

/-- Serialization of a Python value into a stored/returned JSON field
(`None` becomes JSON null). -/
def optJson : Option Json → Json
  | none => .null
  | some v => v

/-- `isinstance(v, (int, float))` on a decoded JSON value.  In Python,
`bool` is a subclass of `int`, so JSON booleans pass this check. -/
def isNumericPy : Json → Bool
  | .num _ => true
  | .bool _ => true
  | _ => false

/-- Numeric value of a decoded JSON value under Python arithmetic
(`True` counts as 1, `False` as 0). -/
def pyNum : Json → ℚ
  | .num q => q
  | .bool b => if b then 1 else 0
  | _ => 0

/-- pydantic validation of an `Optional[str]` field. -/
def pyStrOpt : Option Json → Option (Option String)
  | none => some none
  | some (.str s) => some (some s)
  | some _ => none

/-- pydantic validation of a required `str` field. -/
def pyStr : Option Json → Option String
  | some (.str s) => some s
  | _ => none

/-! ## schemas.py -/

/-- `schemas.SpeakerSegment` (pydantic model); times in seconds, exact. -/
structure SpeakerSegment where
  speaker : Option String
  text : String
  start : Option ℚ
  stop : Option ℚ
deriving DecidableEq

/-- `SpeakerSegment.model_dump()` as the JSON object stored in the meeting
document (the source field name `end` is a Lean keyword; it is `stop` here). -/
def SpeakerSegment.toJson (s : SpeakerSegment) : Json :=
  .obj [("speaker", optJson (s.speaker.map Json.str)),
        ("text", .str s.text),
        ("start", optJson (s.start.map Json.num)),
        ("end", optJson (s.stop.map Json.num))]

/-- `schemas.Meeting` (pydantic model) as constructed by the upload route;
`raw_provider_response` stays a raw JSON value. -/
structure Meeting where
  title : Option String
  source : String
  transcript_id : Option String
  provider : Option String
  status : String
  language : Option String
  transcript : Option String
  summary : Option String
  speakers : Option (List SpeakerSegment)
  raw_provider_response : Option Json

/-! ## Result normalizer: `to_speaker_segments` (main.py, lines 85-102) -/

/-- `start`/`end` conversion of one utterance field:
`(utt.get(k) or 0) / 1000.0 if isinstance(utt.get(k), (int, float)) else None`.
For numeric `v`, `v or 0` differs from `v` only when `v` is falsy, in which
case both are 0, so the result is always `pyNum v / 1000`. -/
def msToSec (v : Option Json) : Option ℚ :=
  match v with
  | some x => if isNumericPy x then some (pyNum x / 1000) else none
  | none => none

/-- The body of the `for utt in utterances` loop: build one `SpeakerSegment`
from an utterance.  `none` models an uncaught exception (`utt.get` on a
non-dict, or a pydantic validation error on `speaker`/`text`). -/
def utteranceToSegment (utt : Json) : Option SpeakerSegment :=
  match utt with
  | .obj _ =>
    match pyStrOpt (pyGet utt "speaker") with
    | none => none
    | some speaker =>
      match pyStr (pyGetD utt "text" (some (.str ""))) with
      | none => none
      | some text =>
        some { speaker := speaker, text := text,
               start := msToSec (pyGet utt "start"),
               stop := msToSec (pyGet utt "end") }
  | _ => none

/-- The `for utt in utterances` loop itself, appending one segment per
utterance; `none` models an exception aborting the request. -/
def segmentsLoop : List Json → Option (List SpeakerSegment)
  | [] => some []
  | u :: us =>
    match utteranceToSegment u with
    | none => none
    | some s =>
      match segmentsLoop us with
      | none => none
      | some ss => some (s :: ss)

/-- `to_speaker_segments(provider_json)` (main.py lines 85-102). -/
def to_speaker_segments (provider_json : Json) : Option (List SpeakerSegment) :=
  -- utterances = provider_json.get("utterances") or []
  match pyOr (pyGet provider_json "utterances") (some (.arr [])) with
  | some (.arr us) =>
    match segmentsLoop us with
    | none => none
    | some segments =>
      if segments.isEmpty then
        -- fallback: single segment with full text
        let text := pyGetD provider_json "text" (some (.str ""))
        if pyTruthy text then
          match text with
          | some (.str s) => some [{ speaker := some "Speaker 1", text := s,
                                     start := none, stop := none }]
          | _ => none    -- pydantic rejects a truthy non-string text
        else
          some []
      else
        some segments
  | _ => none            -- iterating a truthy non-list ends in an exception

/-! ## Provider client (main.py, lines 11-82) -/

/-- `fastapi.HTTPException(status_code, detail)`. -/
structure HttpError where
  status_code : ℕ
  detail : String
deriving DecidableEq

/-- A `requests` response: HTTP status, `resp.text`, and `resp.json()`. -/
structure NetResponse where
  status_code : ℕ
  text : String
  body : Json

/-- Whether `ASSEMBLYAI_API_KEY` is configured: `os.getenv` yields `None`
when unset, and `not ASSEMBLYAI_API_KEY` is also true for the empty string. -/
def keyConfigured : Option String → Bool
  | none => false
  | some s => !s.isEmpty

/-- `_aai_headers()` (main.py lines 30-33). -/
def _aai_headers (apiKey : Option String) : Except HttpError (List (String × String)) :=
  if !keyConfigured apiKey then
    .error ⟨500, "ASSEMBLYAI_API_KEY not set in environment"⟩
  else
    .ok [("authorization", apiKey.getD "")]

/-- `upload_to_assemblyai(file_bytes)` (main.py lines 36-51).  The network
is an oracle `resp` (the provider's one response to the POST); the second
component counts network requests actually issued. -/
def upload_to_assemblyai (apiKey : Option String) (resp : NetResponse)
    (file_bytes : List ℕ) : Except HttpError Json × ℕ :=
  match _aai_headers apiKey with
  | .error e => (.error e, 0)
  | .ok _headers =>
    if resp.status_code ≥ 400 then
      (.error ⟨502, "AssemblyAI upload error: " ++ resp.text⟩, 1)
    else
      match pyGet resp.body "upload_url" with
      | some u =>
        if pyTruthy (some u) then (.ok u, 1)
        else (.error ⟨502, "Failed to obtain upload_url from AssemblyAI"⟩, 1)
      | none => (.error ⟨502, "Failed to obtain upload_url from AssemblyAI"⟩, 1)

/-- `create_transcript(upload_url)` (main.py lines 54-73). -/
def create_transcript (apiKey : Option String) (resp : NetResponse)
    (upload_url : Json) : Except HttpError Json × ℕ :=
  match _aai_headers apiKey with
  | .error e => (.error e, 0)
  | .ok _headers =>
    if resp.status_code ≥ 400 then
      (.error ⟨502, "AssemblyAI transcript error: " ++ resp.text⟩, 1)
    else
      (.ok resp.body, 1)

/-- `fetch_transcript(transcript_id)` (main.py lines 76-82). -/
def fetch_transcript (apiKey : Option String) (resp : NetResponse)
    (transcript_id : String) : Except HttpError Json × ℕ :=
  match _aai_headers apiKey with
  | .error e => (.error e, 0)
  | .ok _headers =>
    if resp.status_code ≥ 400 then
      (.error ⟨502, "AssemblyAI fetch error: " ++ resp.text⟩, 1)
    else
      (.ok resp.body, 1)

/-! ## Upload endpoint: `upload_meeting` (main.py, lines 142-175) -/

/-- The content types enumerated by the no-op check in `upload_meeting`. -/
def allowedContentTypes : List String :=
  ["audio/mpeg", "audio/wav", "audio/x-wav", "audio/webm", "video/webm",
   "video/mp4", "audio/mp4", "audio/ogg", "video/quicktime"]

/-- `MeetingCreateResponse` (main.py lines 25-27). -/
structure MeetingCreateResponse where
  id : String
  status : String
deriving DecidableEq

/-- Side effects of one `upload_meeting` request: how many times each
provider-client function was invoked, how many network requests were
issued, and the documents inserted into the store. -/
structure UploadTrace where
  uploadCalls : ℕ
  createCalls : ℕ
  netCalls : ℕ
  inserted : List Meeting

/-- Construction of the `Meeting` pydantic model from the job-creation
response (main.py lines 166-172); `none` is a validation error. -/
def mkMeeting (filename : Option String) (transcript : Json) : Option Meeting :=
  match pyStrOpt (pyGet transcript "id") with
  | none => none
  | some transcript_id =>
    match pyStr (pyGetD transcript "status" (some (.str "processing"))) with
    | none => none
    | some status =>
      some { title := filename, source := "upload", transcript_id := transcript_id,
             provider := some "assemblyai", status := status, language := none,
             transcript := none, summary := none, speakers := none,
             raw_provider_response := none }

/-- `upload_meeting(file)` (main.py lines 142-175).  `uploadResp` and
`createResp` are the network oracle's responses to the two provider
requests; `newId` is the id the store assigns on insert. -/
def upload_meeting (apiKey : Option String) (uploadResp createResp : NetResponse)
    (newId : String) (content_type : String) (filename : Option String)
    (file_bytes : List ℕ) : Except HttpError MeetingCreateResponse × UploadTrace :=
  -- `if file.content_type not in (...): pass` — allow anyway
  let _ctAllowed := allowedContentTypes.contains content_type
  if file_bytes.length = 0 then
    (.error ⟨400, "Empty file uploaded"⟩, ⟨0, 0, 0, []⟩)
  else
    match upload_to_assemblyai apiKey uploadResp file_bytes with
    | (.error e, n1) => (.error e, ⟨1, 0, n1, []⟩)
    | (.ok upload_url, n1) =>
      match create_transcript apiKey createResp upload_url with
      | (.error e, n2) => (.error e, ⟨1, 1, n1 + n2, []⟩)
      | (.ok transcript, n2) =>
        match mkMeeting filename transcript with
        | none => (.error ⟨500, "Internal Server Error"⟩, ⟨1, 1, n1 + n2, []⟩)
        | some meeting_doc =>
          (.ok ⟨newId, meeting_doc.status⟩, ⟨1, 1, n1 + n2, [meeting_doc]⟩)

/-! ## Read-and-refresh endpoint: `get_meeting` (main.py, lines 187-213) -/

/-- One character of a hexadecimal ObjectId string. -/
def isHexDigitChar (c : Char) : Bool :=
  c.isDigit || ('a' ≤ c && c ≤ 'f') || ('A' ≤ c && c ≤ 'F')

/-- Whether `bson.ObjectId(s)` succeeds: a 24-character hexadecimal string.
(`bytes.fromhex` also tolerates interior whitespace; that corner is not
modelled — no id used below contains whitespace.)  On any other string,
`ObjectId` raises `InvalidId`, which the route does not catch, so FastAPI
answers 500 Internal Server Error. -/
def isValidObjectId (s : String) : Bool :=
  s.length == 24 && s.data.all isHexDigitChar

/-- Python `v == "completed"` on the refreshed status value. -/
def isCompleted : Option Json → Bool
  | some (.str s) => s == "completed"
  | _ => false

/-- Python `status in ("completed", "error")`. -/
def terminalStatus : Option Json → Bool
  | some (.str s) => s == "completed" || s == "error"
  | _ => false

/-- Remove a key from a JSON object (`dict.pop`'s removal part). -/
def objErase : Json → String → Json
  | .obj fields, k => .obj (fields.filter (fun p => !(p.1 == k)))
  | j, _ => j

/-- Set a key on an association list, replacing in place or appending
(CPython dicts keep the position of an existing key). -/
def setKV : List (String × Json) → String → Json → List (String × Json)
  | [], k, v => [(k, v)]
  | (k', v') :: rest, k, v =>
      if k' == k then (k, v) :: rest else (k', v') :: setKV rest k v

/-- Set a key on a JSON object. -/
def objSet : Json → String → Json → Json
  | .obj fields, k, v => .obj (setKV fields k v)
  | j, _, _ => j

/-- `doc.update(update_fields)` and, equally, the effect of
`update_one({"_id": ...}, {"$set": update_fields})` on the stored document:
merge the fields into the document, leaving unlisted keys untouched.
A Python `None` value is persisted as JSON null. -/
def docUpdate (doc : Json) (fields : List (String × Option Json)) : Json :=
  fields.foldl (fun d p => objSet d p.1 (optJson p.2)) doc

/-- `doc["id"] = str(doc.pop("_id"))` (main.py line 212).  The `_id` of a
document matched by `find_one({"_id": ObjectId(id)})` is always an
ObjectId, modelled here as its 24-hex-digit string (whose `str()` is
itself); a missing `_id` would raise `KeyError` → 500. -/
def renameId (doc : Json) : Except HttpError Json :=
  match doc.find? "_id" with
  | some (.str s) => .ok (objSet (objErase doc "_id") "id" (.str s))
  | _ => .error ⟨500, "Internal Server Error"⟩

/-- The summary fallback chain (main.py lines 204-208):
`summary = provider_json.get("summary")`, replaced by
`provider_json["summaries"][0].get("summary")` when `summary` is falsy and
`summaries` is a non-empty list.  `none` models the `AttributeError` raised
by `.get` when the first list element is not a dict. -/
def extract_summary (provider_json : Json) : Option (Option Json) :=
  let summary := pyGet provider_json "summary"
  if pyTruthy summary then
    some summary
  else
    match pyGet provider_json "summaries" with
    | some (.arr (first :: _)) =>
      match first with
      | .obj _ => some (pyGet first "summary")
      | _ => none
    | _ => some summary

/-- The `update_fields` dict built during a refresh (main.py lines
199-208), given the already-computed `new_status`.  `none` models an
exception while normalizing (aborts before any store write). -/
def refreshFields (status_new : Option Json) (provider_json : Json) :
    Option (List (String × Option Json)) :=
  if isCompleted status_new then
    match to_speaker_segments provider_json with
    | none => none
    | some segs =>
      match extract_summary provider_json with
      | none => none
      | some smry =>
        some [("status", status_new),
              ("raw_provider_response", some provider_json),
              ("transcript", pyGet provider_json "text"),
              ("language", pyOr (pyGet provider_json "language_code")
                                (pyGet provider_json "language")),
              ("speakers", some (.arr (segs.map SpeakerSegment.toJson))),
              ("summary", smry)]
  else
    some [("status", status_new), ("raw_provider_response", some provider_json)]

/-- Observable outcome of one `get_meeting` request: the HTTP result, the
transcript ids passed to `fetch_transcript`, and the `$set` payloads of the
`update_one` calls issued, in order.  Effects that happened before a later
exception are still recorded. -/
structure GetMeetingRes where
  result : Except HttpError Json
  fetched : List Json
  updates : List (List (String × Option Json))

/-- `get_meeting(meeting_id)` (main.py lines 187-213).  `store` is the
meeting collection keyed by canonical (lower-case) ObjectId string;
`fetch` abstracts `fetch_transcript` applied to the stored transcript id
(it returns the decoded provider payload or raises an `HTTPException`). -/
def get_meeting (store : String → Option Json)
    (fetch : Json → Except HttpError Json) (meeting_id : String) : GetMeetingRes :=
  if isValidObjectId meeting_id then
    let oid := meeting_id.toLower
    match store oid with
    | none => ⟨.error ⟨404, "Meeting not found"⟩, [], []⟩
    | some doc =>
      -- `if not doc` also rejects a falsy (empty) document
      if !pyTruthy (some doc) then ⟨.error ⟨404, "Meeting not found"⟩, [], []⟩
      else
        let status := pyGet doc "status"
        match pyGet doc "transcript_id" with
        | some tv =>
          if pyTruthy (some tv) && !terminalStatus status then
            match fetch tv with
            | .error e => ⟨.error e, [tv], []⟩
            | .ok provider_json =>
              match provider_json with
              | .obj _ =>
                let new_status := pyGetD provider_json "status" status
                match refreshFields new_status provider_json with
                | none => ⟨.error ⟨500, "Internal Server Error"⟩, [tv], []⟩
                | some update_fields =>
                  ⟨renameId (docUpdate doc update_fields), [tv], [update_fields]⟩
              | _ =>
                -- `.get` on a non-dict payload raises before any write
                ⟨.error ⟨500, "Internal Server Error"⟩, [tv], []⟩
          else ⟨renameId doc, [], []⟩
        | none => ⟨renameId doc, [], []⟩
  else
    ⟨.error ⟨500, "Internal Server Error"⟩, [], []⟩

/-- Lookup in an `update_fields` list. -/
def kvLookup (u : List (String × Option Json)) (k : String) : Option (Option Json) :=
  (u.find? (fun p => p.1 == k)).map Prod.snd

/-- The `summary` value written by the single update of a request, if any. -/
def persistedSummary (r : GetMeetingRes) : Option (Option Json) :=
  match r.updates with
  | [u] => kvLookup u "summary"
  | _ => none

/-- The persisted summary as a string, when it is one. -/
def persistedSummaryStr (r : GetMeetingRes) : Option String :=
  match persistedSummary r with
  | some (some (.str s)) => some s
  | _ => none

/-- HTTP status code of an error outcome. -/
def errStatus {α : Type} : Except HttpError α → Option ℕ
  | .error e => some e.status_code
  | .ok _ => none

/-! ## Concrete documents and oracles used by witnesses and counterexamples -/

/-- A canonical valid ObjectId string. -/
def exId : String := "aaaaaaaaaaaaaaaaaaaaaaaa"

/-- A stored non-terminal meeting awaiting its transcript. -/
def exDocProcessing : Json :=
  .obj [("_id", .str exId), ("title", .str "standup.mp3"),
        ("status", .str "processing"), ("transcript_id", .str "t1")]

/-- A stored terminal meeting. -/
def exDocCompleted : Json :=
  .obj [("_id", .str exId), ("title", .str "standup.mp3"),
        ("status", .str "completed"), ("transcript_id", .str "t1"),
        ("transcript", .str "T")]

/-- A store answering every id with the given document. -/
def constStore (doc : Json) : String → Option Json := fun _ => some doc

/-- The empty store. -/
def emptyStore : String → Option Json := fun _ => none

/-- A fetch oracle answering every job id with the given payload. -/
def constFetch (pj : Json) : Json → Except HttpError Json := fun _ => .ok pj

/-- A completed provider payload whose flat `summary` is the empty string
while `summaries` carries a real one. -/
def pjBlankSummary : Json :=
  .obj [("status", .str "completed"), ("summary", .str ""),
        ("summaries", .arr [.obj [("summary", .str "X")]]),
        ("text", .str "hello")]

/-! ## Helper lemmas -/

theorem find?_of_pyGet {j : Json} {k : String} {v : Json}
    (h : pyGet j k = some v) : j.find? k = some v := by
  unfold pyGet pyVal at h
  cases hf : j.find? k with
  | none => rw [hf] at h; exact absurd h (by simp)
  | some w =>
    rw [hf] at h
    cases w <;> simp_all

theorem pyGetD_of_pyGet {j : Json} {k : String} {v : Json}
    (h : pyGet j k = some v) (d : Option Json) : pyGetD j k d = some v := by
  have hf := find?_of_pyGet h
  unfold pyGet at h
  rw [hf] at h
  unfold pyGetD
  rw [hf]
  exact h

/-- A successful provider response to the binary upload. -/
def exUploadResp : NetResponse := ⟨200, "", .obj [("upload_url", .str "u")]⟩

/-- A successful provider response to the job-creation request. -/
def exCreateResp : NetResponse :=
  ⟨200, "", .obj [("id", .str "t1"), ("status", .str "queued")]⟩

/-! ## C7 -/

/-- C7: `CreateFromUpload` (POST /api/meetings/upload) with a zero-length
file payload fails with `InvalidInput` (HTTP 400, "Empty file uploaded")
and performs no provider call, no network request, and no store insert:
no meeting record is created. -/
theorem uploadMeeting_rejects_empty_payload
    (apiKey : Option String) (uploadResp createResp : NetResponse)
    (newId content_type : String) (filename : Option String) :
    upload_meeting apiKey uploadResp createResp newId content_type filename [] =
      (.error ⟨400, "Empty file uploaded"⟩, ⟨0, 0, 0, []⟩) := rfl

/-! ## C8 -/

/-- C8: when the provider credential is not configured, each of the three
provider operations (upload, job creation, job fetch) fails immediately
with a ConfigurationError (HTTP 500) and zero network requests issued. -/
theorem providerClient_fails_fast_without_credential
    (apiKey : Option String) (h : keyConfigured apiKey = false)
    (resp : NetResponse) (file_bytes : List ℕ) (upload_url : Json) (tid : String) :
    upload_to_assemblyai apiKey resp file_bytes =
        (.error ⟨500, "ASSEMBLYAI_API_KEY not set in environment"⟩, 0) ∧
    create_transcript apiKey resp upload_url =
        (.error ⟨500, "ASSEMBLYAI_API_KEY not set in environment"⟩, 0) ∧
    fetch_transcript apiKey resp tid =
        (.error ⟨500, "ASSEMBLYAI_API_KEY not set in environment"⟩, 0) := by
  unfold upload_to_assemblyai create_transcript fetch_transcript _aai_headers
  rw [h]
  exact ⟨rfl, rfl, rfl⟩

theorem providerClient_fails_fast_without_credential_witness :
    keyConfigured none = false ∧
    upload_to_assemblyai none ⟨200, "ok", Json.null⟩ [1] =
      (.error ⟨500, "ASSEMBLYAI_API_KEY not set in environment"⟩, 0) ∧
    fetch_transcript none ⟨200, "ok", Json.null⟩ "t1" =
      (.error ⟨500, "ASSEMBLYAI_API_KEY not set in environment"⟩, 0) := by
  refine ⟨rfl, ?_, ?_⟩
  · exact (providerClient_fails_fast_without_credential none rfl
      ⟨200, "ok", Json.null⟩ [1] Json.null "t1").1
  · exact (providerClient_fails_fast_without_credential none rfl
      ⟨200, "ok", Json.null⟩ [1] Json.null "t1").2.2

/-! ## C9 (corrected) -/

/-- C9 counterexample: the id "nope" names no stored meeting, yet the
endpoint does not answer 404: `ObjectId("nope")` raises `InvalidId`, which
the handler does not catch, so the response is a 500 Internal Server
Error. -/
theorem getMeeting_malformed_id_counterexample :
    errStatus (get_meeting emptyStore (constFetch Json.null) "nope").result = some 500 ∧
    errStatus (get_meeting emptyStore (constFetch Json.null) "nope").result ≠ some 404 :=
  ⟨rfl, by decide⟩

/-- C9 amended: for every well-formed ObjectId id for which no meeting
exists in the store, GetAndRefresh fails with NotFound (HTTP 404), with no
provider fetch and no store write; ill-formed ids instead produce a 500. -/
theorem getMeeting_unknown_valid_id_404
    (store : String → Option Json) (fetch : Json → Except HttpError Json)
    (mid : String) (hv : isValidObjectId mid = true)
    (hst : store mid.toLower = none) :
    get_meeting store fetch mid = ⟨.error ⟨404, "Meeting not found"⟩, [], []⟩ := by
  simp [get_meeting, hv, hst]

theorem getMeeting_unknown_valid_id_404_witness :
    isValidObjectId exId = true ∧
    get_meeting emptyStore (constFetch Json.null) exId =
      ⟨.error ⟨404, "Meeting not found"⟩, [], []⟩ :=
  ⟨by decide, getMeeting_unknown_valid_id_404 emptyStore (constFetch Json.null) exId
    (by decide) rfl⟩

/-! ## Orchestrator helper lemmas -/

/-- On the refresh path (valid id, stored truthy document, truthy
transcript id, non-terminal status), `get_meeting` reduces to the
fetch-and-reconcile step. -/
theorem get_meeting_refresh_eq
    (store : String → Option Json) (fetch : Json → Except HttpError Json)
    (mid : String) (doc tv : Json)
    (hv : isValidObjectId mid = true)
    (hst : store mid.toLower = some doc)
    (hdoc : pyTruthy (some doc) = true)
    (htid : pyGet doc "transcript_id" = some tv)
    (htv : pyTruthy (some tv) = true)
    (hterm : terminalStatus (pyGet doc "status") = false) :
    get_meeting store fetch mid =
      match fetch tv with
      | .error e => ⟨.error e, [tv], []⟩
      | .ok pj =>
        match pj with
        | .obj _ =>
          match refreshFields (pyGetD pj "status" (pyGet doc "status")) pj with
          | none => ⟨.error ⟨500, "Internal Server Error"⟩, [tv], []⟩
          | some u => ⟨renameId (docUpdate doc u), [tv], [u]⟩
        | _ => ⟨.error ⟨500, "Internal Server Error"⟩, [tv], []⟩ := by
  simp [get_meeting, hv, hst, hdoc, htid, htv, hterm]

/-- Whatever branch `refreshFields` takes, the produced update starts with
the new status and the raw provider payload. -/
theorem refreshFields_status_raw {ns : Option Json} {pj : Json}
    {u : List (String × Option Json)} (h : refreshFields ns pj = some u) :
    kvLookup u "status" = some ns ∧
    kvLookup u "raw_provider_response" = some (some pj) := by
  unfold refreshFields at h
  by_cases hc : isCompleted ns = true
  · rw [if_pos hc] at h
    cases hsg : to_speaker_segments pj with
    | none => rw [hsg] at h; exact absurd h (by simp)
    | some segs =>
      rw [hsg] at h
      cases hsm : extract_summary pj with
      | none => rw [hsm] at h; exact absurd h (by simp)
      | some smry =>
        rw [hsm] at h
        have he := Option.some.inj h
        subst he
        exact ⟨rfl, rfl⟩
  · rw [if_neg hc] at h
    have he := Option.some.inj h
    subst he
    exact ⟨rfl, rfl⟩

/-! ## C1 -/

/-- C1: for every stored meeting whose status is "completed" or "error",
or whose transcriptId is absent (Python `None`), GetAndRefresh makes no
provider fetch, performs no store write, and returns the stored document
unchanged apart from the `_id` → `id` renaming. -/
theorem getAndRefresh_terminal_or_no_tid_noop
    (store : String → Option Json) (fetch : Json → Except HttpError Json)
    (mid : String) (doc : Json)
    (hv : isValidObjectId mid = true)
    (hst : store mid.toLower = some doc)
    (hdoc : pyTruthy (some doc) = true)
    (hcond : terminalStatus (pyGet doc "status") = true ∨
             pyGet doc "transcript_id" = none) :
    get_meeting store fetch mid = ⟨renameId doc, [], []⟩ := by
  rcases hcond with hterm | hnotid
  · cases htid : pyGet doc "transcript_id" with
    | none => simp [get_meeting, hv, hst, hdoc, htid]
    | some tv => simp [get_meeting, hv, hst, hdoc, htid, hterm]
  · simp [get_meeting, hv, hst, hdoc, hnotid]

theorem getAndRefresh_terminal_or_no_tid_noop_witness :
    isValidObjectId exId = true ∧
    terminalStatus (pyGet exDocCompleted "status") = true ∧
    get_meeting (constStore exDocCompleted) (constFetch Json.null) exId =
      ⟨renameId exDocCompleted, [], []⟩ := by
  refine ⟨by decide, rfl, ?_⟩
  exact getAndRefresh_terminal_or_no_tid_noop (constStore exDocCompleted)
    (constFetch Json.null) exId exDocCompleted (by decide) rfl rfl (Or.inl rfl)

/-! ## C2 -/

/-- The field list of a completed provider payload with no flat `summary`
but a `summaries` list — the spec's summary-fallback example. -/
def pjSummariesFields : List (String × Json) :=
  [("status", .str "completed"),
   ("summaries", .arr [.obj [("summary", .str "X")]]),
   ("text", .str "hello")]

/-- That payload as a JSON object. -/
def pjSummaries : Json := .obj pjSummariesFields

/-- C2: for every stored meeting with a (truthy) transcriptId and a
non-terminal status, GetAndRefresh issues exactly one provider fetch and —
when the refresh pipeline succeeds — issues exactly one store update whose
fields include the status taken from the fetched response and the raw
provider payload, regardless of whether the newly observed status is
terminal. -/
theorem getAndRefresh_nonterminal_one_fetch_updates
    (store : String → Option Json) (fetch : Json → Except HttpError Json)
    (mid : String) (doc tv : Json) (fields : List (String × Json)) (sv : Json)
    (u : List (String × Option Json))
    (hv : isValidObjectId mid = true)
    (hst : store mid.toLower = some doc)
    (hdoc : pyTruthy (some doc) = true)
    (htid : pyGet doc "transcript_id" = some tv)
    (htv : pyTruthy (some tv) = true)
    (hterm : terminalStatus (pyGet doc "status") = false)
    (hf : fetch tv = .ok (Json.obj fields))
    (hsv : pyGet (Json.obj fields) "status" = some sv)
    (hrf : refreshFields (pyGetD (Json.obj fields) "status" (pyGet doc "status"))
             (Json.obj fields) = some u) :
    (get_meeting store fetch mid).fetched = [tv] ∧
    (get_meeting store fetch mid).updates = [u] ∧
    kvLookup u "status" = some (some sv) ∧
    kvLookup u "raw_provider_response" = some (some (Json.obj fields)) := by
  have hm := get_meeting_refresh_eq store fetch mid doc tv hv hst hdoc htid htv hterm
  simp only [hf, hrf] at hm
  have hns : pyGetD (Json.obj fields) "status" (pyGet doc "status") = some sv :=
    pyGetD_of_pyGet hsv _
  rw [hns] at hrf
  obtain ⟨h1, h2⟩ := refreshFields_status_raw hrf
  exact ⟨by rw [hm], by rw [hm], h1, h2⟩

theorem getAndRefresh_nonterminal_one_fetch_updates_witness :
    (get_meeting (constStore exDocProcessing) (constFetch pjSummaries) exId).fetched =
      [Json.str "t1"] ∧
    ∃ u, (get_meeting (constStore exDocProcessing) (constFetch pjSummaries) exId).updates = [u] ∧
      kvLookup u "status" = some (some (Json.str "completed")) ∧
      kvLookup u "raw_provider_response" = some (some pjSummaries) := by
  have h := getAndRefresh_nonterminal_one_fetch_updates
    (constStore exDocProcessing) (constFetch pjSummaries) exId exDocProcessing
    (Json.str "t1") pjSummariesFields (Json.str "completed")
    [("status", some (Json.str "completed")),
     ("raw_provider_response", some pjSummaries),
     ("transcript", some (Json.str "hello")),
     ("language", none),
     ("speakers", some (Json.arr
        [SpeakerSegment.toJson ⟨some "Speaker 1", "hello", none, none⟩])),
     ("summary", some (Json.str "X"))]
    (by decide) rfl rfl rfl rfl rfl rfl rfl rfl
  exact ⟨h.1, _, h.2.1, h.2.2.1, h.2.2.2⟩

/-! ## C3 -/

/-- C3: during a refresh of a non-terminal meeting, the fields
`transcript`, `language`, `speakers` and `summary` are written if and only
if the newly observed status is "completed", and then in the same single
store update as the status change; on a refresh whose new status is not
"completed", the single update writes exactly `status` and
`raw_provider_response` and nothing else. -/
theorem getAndRefresh_result_fields_iff_completed
    (store : String → Option Json) (fetch : Json → Except HttpError Json)
    (mid : String) (doc tv : Json) (fields : List (String × Json))
    (hv : isValidObjectId mid = true)
    (hst : store mid.toLower = some doc)
    (hdoc : pyTruthy (some doc) = true)
    (htid : pyGet doc "transcript_id" = some tv)
    (htv : pyTruthy (some tv) = true)
    (hterm : terminalStatus (pyGet doc "status") = false)
    (hf : fetch tv = .ok (Json.obj fields)) :
    (∀ segs smry,
      isCompleted (pyGetD (Json.obj fields) "status" (pyGet doc "status")) = true →
      to_speaker_segments (Json.obj fields) = some segs →
      extract_summary (Json.obj fields) = some smry →
      (get_meeting store fetch mid).updates =
        [[("status", pyGetD (Json.obj fields) "status" (pyGet doc "status")),
          ("raw_provider_response", some (Json.obj fields)),
          ("transcript", pyGet (Json.obj fields) "text"),
          ("language", pyOr (pyGet (Json.obj fields) "language_code")
                            (pyGet (Json.obj fields) "language")),
          ("speakers", some (.arr (segs.map SpeakerSegment.toJson))),
          ("summary", smry)]]) ∧
    (isCompleted (pyGetD (Json.obj fields) "status" (pyGet doc "status")) = false →
      (get_meeting store fetch mid).updates =
        [[("status", pyGetD (Json.obj fields) "status" (pyGet doc "status")),
          ("raw_provider_response", some (Json.obj fields))]]) := by
  have hm := get_meeting_refresh_eq store fetch mid doc tv hv hst hdoc htid htv hterm
  simp only [hf] at hm
  constructor
  · intro segs smry hc hsg hsm
    have hrf : refreshFields (pyGetD (Json.obj fields) "status" (pyGet doc "status"))
        (Json.obj fields) =
        some [("status", pyGetD (Json.obj fields) "status" (pyGet doc "status")),
              ("raw_provider_response", some (Json.obj fields)),
              ("transcript", pyGet (Json.obj fields) "text"),
              ("language", pyOr (pyGet (Json.obj fields) "language_code")
                                (pyGet (Json.obj fields) "language")),
              ("speakers", some (.arr (segs.map SpeakerSegment.toJson))),
              ("summary", smry)] := by
      unfold refreshFields
      rw [if_pos hc, hsg, hsm]
    simp only [hrf] at hm
    rw [hm]
  · intro hc
    have hrf : refreshFields (pyGetD (Json.obj fields) "status" (pyGet doc "status"))
        (Json.obj fields) =
        some [("status", pyGetD (Json.obj fields) "status" (pyGet doc "status")),
              ("raw_provider_response", some (Json.obj fields))] := by
      unfold refreshFields
      rw [hc]
      simp
    simp only [hrf] at hm
    rw [hm]

theorem getAndRefresh_result_fields_iff_completed_witness :
    (get_meeting (constStore exDocProcessing) (constFetch pjSummaries) exId).updates =
      [[("status", some (Json.str "completed")),
        ("raw_provider_response", some pjSummaries),
        ("transcript", some (Json.str "hello")),
        ("language", none),
        ("speakers", some (Json.arr
           [SpeakerSegment.toJson ⟨some "Speaker 1", "hello", none, none⟩])),
        ("summary", some (Json.str "X"))]] := by
  have h := (getAndRefresh_result_fields_iff_completed
    (constStore exDocProcessing) (constFetch pjSummaries) exId exDocProcessing
    (Json.str "t1") pjSummariesFields
    (by decide) rfl rfl rfl rfl rfl rfl).1
    [⟨some "Speaker 1", "hello", none, none⟩] (some (Json.str "X")) rfl rfl rfl
  exact h

/-! ## C4 -/

/-- What C4 claims of one utterance/segment pair: speaker copied verbatim,
text copied verbatim (empty string when the key is absent), start/end
converted from milliseconds to seconds by division by 1000 when the source
value passes Python's numeric check (which admits booleans, since `bool`
subclasses `int`), and `None` otherwise. -/
def SegMatches (utt : Json) (seg : SpeakerSegment) : Prop :=
  (∀ s : String, pyGet utt "speaker" = some (.str s) → seg.speaker = some s) ∧
  (pyGet utt "speaker" = none → seg.speaker = none) ∧
  (∀ t : String, pyGet utt "text" = some (.str t) → seg.text = t) ∧
  (utt.find? "text" = none → seg.text = "") ∧
  (∀ v : Json, pyGet utt "start" = some v → isNumericPy v = true →
    seg.start = some (pyNum v / 1000)) ∧
  (∀ v : Json, pyGet utt "start" = some v → isNumericPy v = false →
    seg.start = none) ∧
  (pyGet utt "start" = none → seg.start = none) ∧
  (∀ v : Json, pyGet utt "end" = some v → isNumericPy v = true →
    seg.stop = some (pyNum v / 1000)) ∧
  (∀ v : Json, pyGet utt "end" = some v → isNumericPy v = false →
    seg.stop = none) ∧
  (pyGet utt "end" = none → seg.stop = none)

theorem utteranceToSegment_matches {utt : Json} {seg : SpeakerSegment}
    (h : utteranceToSegment utt = some seg) : SegMatches utt seg := by
  unfold utteranceToSegment at h
  cases utt with
  | obj fs =>
    cases hsp : pyStrOpt (pyGet (Json.obj fs) "speaker") with
    | none => rw [hsp] at h; exact absurd h (by simp)
    | some spv =>
      rw [hsp] at h
      cases htx : pyStr (pyGetD (Json.obj fs) "text" (some (.str ""))) with
      | none => rw [htx] at h; exact absurd h (by simp)
      | some txt =>
        rw [htx] at h
        have he := Option.some.inj h
        subst he
        refine ⟨?_, ?_, ?_, ?_, ?_, ?_, ?_, ?_, ?_, ?_⟩
        · intro s hs
          rw [hs] at hsp
          simpa [pyStrOpt] using hsp.symm
        · intro hs
          rw [hs] at hsp
          simpa [pyStrOpt] using hsp.symm
        · intro t ht
          rw [pyGetD_of_pyGet ht] at htx
          simpa [pyStr] using htx.symm
        · intro hfind
          unfold pyGetD at htx
          rw [hfind] at htx
          simpa [pyStr] using htx.symm
        · intro v hv hnum
          show msToSec (pyGet (Json.obj fs) "start") = some (pyNum v / 1000)
          rw [hv]; simp [msToSec, hnum]
        · intro v hv hnum
          show msToSec (pyGet (Json.obj fs) "start") = none
          rw [hv]; simp [msToSec, hnum]
        · intro hv
          show msToSec (pyGet (Json.obj fs) "start") = none
          rw [hv]; rfl
        · intro v hv hnum
          show msToSec (pyGet (Json.obj fs) "end") = some (pyNum v / 1000)
          rw [hv]; simp [msToSec, hnum]
        · intro v hv hnum
          show msToSec (pyGet (Json.obj fs) "end") = none
          rw [hv]; simp [msToSec, hnum]
        · intro hv
          show msToSec (pyGet (Json.obj fs) "end") = none
          rw [hv]; rfl
  | null => exact absurd h (by simp)
  | bool b => exact absurd h (by simp)
  | num q => exact absurd h (by simp)
  | str s => exact absurd h (by simp)
  | arr xs => exact absurd h (by simp)

theorem segmentsLoop_spec : ∀ (us : List Json) (segs : List SpeakerSegment),
    segmentsLoop us = some segs →
    segs.length = us.length ∧
    ∀ i (hi : i < us.length) (hj : i < segs.length),
      utteranceToSegment (us.get ⟨i, hi⟩) = some (segs.get ⟨i, hj⟩) := by
  intro us
  induction us with
  | nil =>
    intro segs h
    unfold segmentsLoop at h
    have he := Option.some.inj h
    subst he
    exact ⟨rfl, fun i hi _ => absurd hi (Nat.not_lt_zero i)⟩
  | cons u us ih =>
    intro segs h
    unfold segmentsLoop at h
    cases hu : utteranceToSegment u with
    | none => rw [hu] at h; exact absurd h (by simp)
    | some s =>
      rw [hu] at h
      cases hl : segmentsLoop us with
      | none => rw [hl] at h; exact absurd h (by simp)
      | some ss =>
        rw [hl] at h
        have he := Option.some.inj h
        subst he
        obtain ⟨hlen, hidx⟩ := ih ss hl
        refine ⟨by simp [hlen], ?_⟩
        intro i hi hj
        cases i with
        | zero => simpa using hu
        | succ n => exact hidx n (Nat.lt_of_succ_lt_succ hi) (Nat.lt_of_succ_lt_succ hj)

/-- C4: for every provider payload carrying a non-empty utterances list,
the normalizer maps the utterances pointwise to speaker segments — same
count, and each segment copies the speaker verbatim, the text verbatim
(empty string when absent), and converts millisecond timings to seconds by
dividing by 1000 when numeric, `None` otherwise. -/
theorem normalizer_maps_utterances_pointwise (payload : Json)
    (us : List Json) (segs : List SpeakerSegment)
    (hu : pyGet payload "utterances" = some (Json.arr us))
    (hne : us ≠ [])
    (hs : to_speaker_segments payload = some segs) :
    segs.length = us.length ∧
    ∀ i (hi : i < us.length) (hj : i < segs.length),
      utteranceToSegment (us.get ⟨i, hi⟩) = some (segs.get ⟨i, hj⟩) ∧
      SegMatches (us.get ⟨i, hi⟩) (segs.get ⟨i, hj⟩) := by
  have htr : pyTruthy (some (Json.arr us)) = true := by
    cases us with
    | nil => exact absurd rfl hne
    | cons a l => rfl
  unfold to_speaker_segments at hs
  rw [hu] at hs
  unfold pyOr at hs
  rw [htr] at hs
  simp only [if_true] at hs
  cases hl : segmentsLoop us with
  | none => rw [hl] at hs; exact absurd hs (by simp)
  | some segments =>
    rw [hl] at hs
    obtain ⟨hlen, hidx⟩ := segmentsLoop_spec us segments hl
    have hnempty : segments.isEmpty = false := by
      cases segments with
      | nil =>
        exfalso
        cases us with
        | nil => exact hne rfl
        | cons a l => exact absurd hlen (by simp)
      | cons a l => rfl
    simp only [hnempty, Bool.false_eq_true, if_false, Option.some.injEq] at hs
    subst hs
    exact ⟨hlen, fun i hi hj =>
      ⟨hidx i hi hj, utteranceToSegment_matches (hidx i hi hj)⟩⟩

/-- The utterance of the spec's round-trip example. -/
def exUtt : Json :=
  .obj [("speaker", .str "A"), ("text", .str "hi"),
        ("start", .num 1000), ("end", .num 2000)]

/-- The payload of the spec's round-trip example. -/
def exUtterancesPayload : Json := .obj [("utterances", .arr [exUtt])]

theorem normalizer_maps_utterances_pointwise_witness :
    to_speaker_segments exUtterancesPayload =
      some [⟨some "A", "hi", some 1, some 2⟩] ∧
    ([(⟨some "A", "hi", some 1, some 2⟩ : SpeakerSegment)]).length = [exUtt].length ∧
    SegMatches exUtt ⟨some "A", "hi", some 1, some 2⟩ := by
  have h1 : to_speaker_segments exUtterancesPayload =
      some [⟨some "A", "hi", some (pyNum (.num 1000) / 1000),
             some (pyNum (.num 2000) / 1000)⟩] := rfl
  have h2 : pyNum (.num 1000) / (1000 : ℚ) = 1 := by norm_num [pyNum]
  have h3 : pyNum (.num 2000) / (1000 : ℚ) = 2 := by norm_num [pyNum]
  rw [h2, h3] at h1
  have h := normalizer_maps_utterances_pointwise exUtterancesPayload [exUtt]
    [⟨some "A", "hi", some 1, some 2⟩] rfl (by simp) h1
  exact ⟨h1, h.1, (h.2 0 (by decide) (by decide)).2⟩

/-! ## C5 (corrected) -/

/-- C5 counterexample: the payload `{"text": ""}` has a top-level text
field (and no utterances), yet the normalizer emits no synthetic segment
at all — the code guards the fallback with Python truthiness (`if text:`),
which an empty string fails — where the claim demands exactly one segment
`{speaker: "Speaker 1", text: "", start: null, end: null}`. -/
theorem normalizer_blank_text_counterexample :
    Json.find? (Json.obj [("text", Json.str "")]) "text" = some (Json.str "") ∧
    to_speaker_segments (Json.obj [("text", Json.str "")]) = some [] ∧
    to_speaker_segments (Json.obj [("text", Json.str "")]) ≠
      some [{ speaker := some "Speaker 1", text := "", start := none, stop := none }] :=
  ⟨rfl, rfl, by decide⟩

/-- C5 amended: for every provider payload with no utterances (key absent,
null, or an empty list): if the top-level text field holds a non-empty
string the normalizer emits exactly one synthetic segment with speaker
label "Speaker 1", the full text and no timing; if the text value is falsy
(absent, null, empty string, or any other falsy value) the resulting
segment sequence is empty. -/
theorem normalizer_text_fallback (payload : Json)
    (hu : pyGet payload "utterances" = none ∨
          pyGet payload "utterances" = some (Json.arr [])) :
    (∀ s : String, pyGetD payload "text" (some (Json.str "")) = some (Json.str s) →
      s ≠ "" →
      to_speaker_segments payload =
        some [{ speaker := some "Speaker 1", text := s, start := none, stop := none }]) ∧
    (pyTruthy (pyGetD payload "text" (some (Json.str ""))) = false →
      to_speaker_segments payload = some []) := by
  have hor : pyOr (pyGet payload "utterances") (some (Json.arr [])) =
      some (Json.arr []) := by
    rcases hu with h | h <;> simp [pyOr, h, pyTruthy]
  constructor
  · intro s hs hne
    have hse : s.isEmpty = false := by
      cases hemp : s.isEmpty with
      | false => rfl
      | true => exact absurd (String.isEmpty_iff s |>.mp hemp) hne
    unfold to_speaker_segments
    rw [hor]
    simp only [segmentsLoop, List.isEmpty_nil, if_true, hs, pyTruthy, hse]
    simp
  · intro hfalsy
    unfold to_speaker_segments
    rw [hor]
    simp only [segmentsLoop, List.isEmpty_nil, if_true, hfalsy]
    simp

theorem normalizer_text_fallback_witness :
    to_speaker_segments (Json.obj [("text", Json.str "hello world")]) =
      some [{ speaker := some "Speaker 1", text := "hello world",
              start := none, stop := none }] :=
  (normalizer_text_fallback (Json.obj [("text", Json.str "hello world")])
    (Or.inl rfl)).1 "hello world" rfl (by decide)

/-! ## C6 (corrected) -/

/-- C6 counterexample: at a completed transition on the payload
`{"status": "completed", "summary": "", "summaries": [{"summary": "X"}],
"text": "hello"}` the flat summary field is present (the empty string),
so the claim says the persisted summary is `""`; but the code's `if not
summary` treats the empty string as missing and falls through, persisting
"X" from the summaries list instead. -/
theorem summary_blank_flat_counterexample :
    Json.find? pjBlankSummary "summary" = some (Json.str "") ∧
    persistedSummaryStr (get_meeting (constStore exDocProcessing)
      (constFetch pjBlankSummary) exId) = some "X" ∧
    persistedSummaryStr (get_meeting (constStore exDocProcessing)
      (constFetch pjBlankSummary) exId) ≠ some "" :=
  ⟨rfl, rfl, by decide⟩

/-- C6 amended: for every provider payload observed at a completed
transition (refresh pipeline succeeding), the summary persisted in the
single store update is: the payload's flat summary field when that field
is present with a truthy (e.g. non-empty) value; otherwise the inner
summary field of the first element of the payload's summaries list when
that list is non-empty (and its head an object); otherwise the flat
summary value itself — null when the field is absent or null. -/
theorem summary_fallback_chain
    (store : String → Option Json) (fetch : Json → Except HttpError Json)
    (mid : String) (doc tv : Json) (fields : List (String × Json))
    (segs : List SpeakerSegment) (smry : Option Json)
    (hv : isValidObjectId mid = true)
    (hst : store mid.toLower = some doc)
    (hdoc : pyTruthy (some doc) = true)
    (htid : pyGet doc "transcript_id" = some tv)
    (htv : pyTruthy (some tv) = true)
    (hterm : terminalStatus (pyGet doc "status") = false)
    (hf : fetch tv = .ok (Json.obj fields))
    (hcomp : isCompleted (pyGetD (Json.obj fields) "status" (pyGet doc "status")) = true)
    (hsegs : to_speaker_segments (Json.obj fields) = some segs)
    (hsum : extract_summary (Json.obj fields) = some smry) :
    persistedSummary (get_meeting store fetch mid) = some smry ∧
    (pyTruthy (pyGet (Json.obj fields) "summary") = true →
      smry = pyGet (Json.obj fields) "summary") ∧
    (pyTruthy (pyGet (Json.obj fields) "summary") = false →
      ∀ ofs rest, pyGet (Json.obj fields) "summaries" =
          some (Json.arr (Json.obj ofs :: rest)) →
        smry = pyGet (Json.obj ofs) "summary") ∧
    (pyTruthy (pyGet (Json.obj fields) "summary") = false →
      (∀ x xs, pyGet (Json.obj fields) "summaries" ≠ some (Json.arr (x :: xs))) →
      smry = pyGet (Json.obj fields) "summary") := by
  have hm := get_meeting_refresh_eq store fetch mid doc tv hv hst hdoc htid htv hterm
  simp only [hf] at hm
  refine ⟨?_, ?_, ?_, ?_⟩
  · have hrf : refreshFields (pyGetD (Json.obj fields) "status" (pyGet doc "status"))
        (Json.obj fields) =
        some [("status", pyGetD (Json.obj fields) "status" (pyGet doc "status")),
              ("raw_provider_response", some (Json.obj fields)),
              ("transcript", pyGet (Json.obj fields) "text"),
              ("language", pyOr (pyGet (Json.obj fields) "language_code")
                                (pyGet (Json.obj fields) "language")),
              ("speakers", some (.arr (segs.map SpeakerSegment.toJson))),
              ("summary", smry)] := by
      unfold refreshFields
      rw [if_pos hcomp, hsegs, hsum]
    simp only [hrf] at hm
    rw [hm]
    rfl
  · intro htr
    simp only [extract_summary] at hsum
    rw [htr] at hsum
    simp only [if_true] at hsum
    exact (Option.some.inj hsum).symm
  · intro htr ofs rest hsml
    simp only [extract_summary] at hsum
    rw [htr] at hsum
    simp only [Bool.false_eq_true, if_false, hsml] at hsum
    exact (Option.some.inj hsum).symm
  · intro htr hno
    simp only [extract_summary] at hsum
    rw [htr] at hsum
    simp only [Bool.false_eq_true, if_false] at hsum
    cases hsml : pyGet (Json.obj fields) "summaries" with
    | none => exact (Option.some.inj hsum).symm
    | some v =>
      cases v with
      | arr xs =>
        cases xs with
        | nil => exact (Option.some.inj hsum).symm
        | cons x rest => exact absurd hsml (hno x rest)
      | null => exact (Option.some.inj hsum).symm
      | bool b => exact (Option.some.inj hsum).symm
      | num q => exact (Option.some.inj hsum).symm
      | str s => exact (Option.some.inj hsum).symm
      | obj l => exact (Option.some.inj hsum).symm

theorem summary_fallback_chain_witness :
    persistedSummary (get_meeting (constStore exDocProcessing)
      (constFetch pjSummaries) exId) = some (some (Json.str "X")) :=
  (summary_fallback_chain (constStore exDocProcessing) (constFetch pjSummaries)
    exId exDocProcessing (Json.str "t1") pjSummariesFields
    [⟨some "Speaker 1", "hello", none, none⟩] (some (Json.str "X"))
    (by decide) rfl rfl rfl rfl rfl rfl rfl rfl rfl).1

/-! ## C10 -/

/-- C10: the upload endpoint never rejects a request because of its
declared content type — the outcome is identical for any two content
types — and for every non-empty file payload the handler always reaches
the provider upload call (exactly one `upload_to_assemblyai` invocation),
so the only pre-provider input validation is the non-emptiness check. -/
theorem uploadMeeting_content_type_noop
    (apiKey : Option String) (uploadResp createResp : NetResponse)
    (newId ct ct2 : String) (filename : Option String) (file_bytes : List ℕ) :
    upload_meeting apiKey uploadResp createResp newId ct filename file_bytes =
      upload_meeting apiKey uploadResp createResp newId ct2 filename file_bytes ∧
    (file_bytes.length ≠ 0 →
      (upload_meeting apiKey uploadResp createResp newId ct filename file_bytes).2.uploadCalls = 1) := by
  constructor
  · rfl
  · intro h
    unfold upload_meeting
    rw [if_neg h]
    split
    · rfl
    · split
      · rfl
      · split
        · rfl
        · rfl

theorem uploadMeeting_content_type_noop_witness :
    ([1] : List ℕ).length ≠ 0 ∧
    upload_meeting (some "k") exUploadResp exCreateResp "id1" "text/plain"
        (some "a.mp3") [1] =
      upload_meeting (some "k") exUploadResp exCreateResp "id1" "audio/mpeg"
        (some "a.mp3") [1] ∧
    (upload_meeting (some "k") exUploadResp exCreateResp "id1" "text/plain"
        (some "a.mp3") [1]).2.uploadCalls = 1 := by
  refine ⟨by decide, ?_, ?_⟩
  · exact (uploadMeeting_content_type_noop (some "k") exUploadResp exCreateResp
      "id1" "text/plain" "audio/mpeg" (some "a.mp3") [1]).1
  · exact (uploadMeeting_content_type_noop (some "k") exUploadResp exCreateResp
      "id1" "text/plain" "audio/mpeg" (some "a.mp3") [1]).2 (by decide)

end MeetingRecorder
